import Mathlib

/-!
Verification of the FlaskFullApp movie-rating application (src/app.py).

The route handlers of `app.py` are shallowly embedded as pure functions on an
explicit state consisting of the per-client session and the persistence store.
Rendering a template, redirecting, or aborting with 404 are the possible
responses; flash messages are collected in a list.  The SQLAlchemy models
(`models.py`) and WTForms forms (`forms.py`) are not part of the sources; the
little that the handlers need of them (a `created_at` timestamp default on
`Rating`, and the fact that a handler only persists after the form validated)
is modelled from the spec where indicated.
-/

/-- A stored user: `username` (unique), `password` (hashed digest), `role`
(`admin` or `viewer`).  Mirrors the `User` model used by `app.py`. -/
structure User where
  username : String
  password : String
  role : String
deriving DecidableEq

/-- A movie record: auto-assigned `id`, `title`, `description`. -/
structure Movie where
  id : Nat
  title : String
  description : String
deriving DecidableEq

/-- A rating record: rater `name`, `movie` title string, `stars`, `remarks`
and the server-assigned `created_at` timestamp.
`created_at` is a default column of the `Rating` model.
Modelled from the spec: `models.py` is absent from the sources; the spec says
`created_at` is a "timestamp, set at creation, used for descending sort", so
it is represented as a natural number assigned from the server clock. -/
structure Rating where
  id : Nat
  name : String
  movie : String
  stars : Nat
  remarks : String
  created_at : Nat
deriving DecidableEq

/-- The persistence store: the three tables plus auto-increment counters and
the server clock used for `created_at` defaults. -/
structure Db where
  users : List User
  movies : List Movie
  ratings : List Rating
  nextMovieId : Nat
  nextRatingId : Nat
  now : Nat
deriving DecidableEq

/-- The per-client session: the two keys `user` and `role`, each possibly
absent, exactly like Flask's `session` mapping as used by `app.py`. -/
structure Session where
  user : Option String
  role : Option String
deriving DecidableEq

/-- A flash message with its category, as produced by `flash(message, category)`. -/
structure Flash where
  message : String
  category : String
deriving DecidableEq

/-- The response a handler returns: rendering a template, redirecting to an
endpoint (`redirect(url_for(endpoint))`), or aborting with 404
(`Movie.query.get_or_404`). -/
inductive Response where
  | render (template : String)
  | redirect (endpoint : String)
  | notFound
deriving DecidableEq

/-- The complete observable outcome of one request: the response, the session
as left behind, the store as left behind, and the flash messages emitted. -/
structure HandlerResult where
  response : Response
  sess : Session
  db : Db
  flashes : List Flash
deriving DecidableEq

/-- `werkzeug.security.generate_password_hash`, modelled as an injective
tagging of the plaintext: the digest is recognisably not the plaintext and
`check_password_hash` succeeds exactly on the original plaintext. -/
def generate_password_hash (plaintext : String) : String :=
  "pbkdf2:sha256$" ++ plaintext

/-- `werkzeug.security.check_password_hash digest plaintext`. -/
def check_password_hash (digest plaintext : String) : Bool :=
  digest == generate_password_hash plaintext

/-- `User.query.filter_by(username=...).first()`. -/
def findUser (db : Db) (uname : String) : Option User :=
  db.users.find? (fun u => u.username == uname)

/-- `Movie.query.get(id)`: primary-key lookup. -/
def findMovie (db : Db) (id : Nat) : Option Movie :=
  db.movies.find? (fun m => m.id == id)

/-- The bootstrap block of `app.py` (lines 24-34): after `db.create_all()`,
if no user named `admin` exists, seed the `admin` and `viewer` accounts with
hashed passwords.  Schema creation has no content in this model. -/
def bootstrap (db : Db) : Db :=
  if (findUser db "admin").isSome then db
  else
    { db with users := db.users ++
        [ { username := "admin", password := generate_password_hash "admin123", role := "admin" },
          { username := "viewer", password := generate_password_hash "viewer123", role := "viewer" } ] }

/-- The empty store, before any bootstrap. -/
def emptyDb : Db :=
  { users := [], movies := [], ratings := [], nextMovieId := 1, nextRatingId := 1, now := 0 }

/-- `GET /` (`index`): list all movies, no guard, no mutation. -/
def index (sess : Session) (db : Db) : HandlerResult :=
  { response := .render "index.html", sess := sess, db := db, flashes := [] }

/-- A validated login form submission.  `none` stands for a GET request or a
submission the form-validation collaborator rejected
(`form.validate_on_submit()` false). -/
def LoginSubmission := Option (String × String)

/-- `GET/POST /login` (`login`, lines 46-72 of `app.py`): on a validated
submission, look the user up by username; if found and the password verifies,
write `user` and `role` into the session, flash success and redirect by role
(viewer to `view`, admin to `manage_movies`); otherwise flash
"Invalid credentials" and re-render the login form. -/
def login (sess : Session) (db : Db) (sub : LoginSubmission) : HandlerResult :=
  match sub with
  | none => { response := .render "login.html", sess := sess, db := db, flashes := [] }
  | some (uname, pwd) =>
    match findUser db uname with
    | some user =>
      if check_password_hash user.password pwd then
        let sess' : Session := { user := some user.username, role := some user.role }
        if user.role == "viewer" then
          { response := .redirect "view", sess := sess', db := db,
            flashes := [⟨"Login successful!", "success"⟩] }
        else if user.role == "admin" then
          { response := .redirect "manage_movies", sess := sess', db := db,
            flashes := [⟨"Login successful!", "success"⟩] }
        else
          { response := .render "login.html", sess := sess', db := db,
            flashes := [⟨"Login successful!", "success"⟩] }
      else
        { response := .render "login.html", sess := sess, db := db,
          flashes := [⟨"Invalid credentials", "danger"⟩] }
    | none =>
      { response := .render "login.html", sess := sess, db := db,
        flashes := [⟨"Invalid credentials", "danger"⟩] }

/-- `GET /logout` (`logout`, lines 76-82): pop both session keys, flash an
info message, redirect home. -/
def logout (_sess : Session) (db : Db) : HandlerResult :=
  { response := .redirect "index",
    sess := { user := none, role := none },
    db := db,
    flashes := [⟨"You have been logged out.", "info"⟩] }

/-- A validated rating form submission: rater name, chosen movie title,
stars, remarks.  Modelled from the spec: `forms.py` is absent from the
sources; the spec says validation means "required fields present, star
bound" and is supplied by the excluded form-validation collaborator, so a
value of this type stands for a submission that collaborator accepted, and
`none` below stands for a GET request or a rejected submission. -/
structure RateSubmission where
  name : String
  movieChoice : String
  stars : Nat
  remarks : String

/-- `GET/POST /rate` (`rate`, lines 86-111): no guard.  On a validated
submission, persist one new `Rating` (with the server-assigned `created_at`),
flash success and redirect back to `rate`; otherwise render the page with all
ratings ordered by `created_at` descending. -/
def rate (sess : Session) (db : Db) (sub : Option RateSubmission) : HandlerResult :=
  match sub with
  | some s =>
    let rating : Rating :=
      { id := db.nextRatingId, name := s.name, movie := s.movieChoice,
        stars := s.stars, remarks := s.remarks, created_at := db.now }
    { response := .redirect "rate", sess := sess,
      db := { db with ratings := db.ratings ++ [rating],
                      nextRatingId := db.nextRatingId + 1 },
      flashes := [⟨"Rating submitted successfully!", "success"⟩] }
  | none =>
    { response := .render "rate.html", sess := sess, db := db, flashes := [] }

/-- `Rating.query.order_by(Rating.created_at.desc()).all()`: the ratings
sorted by `created_at` descending (most recent first). -/
def ratingsDesc (db : Db) : List Rating :=
  List.insertionSort (fun a b => b.created_at ≤ a.created_at) db.ratings

/-- `GET /manage` (`manage_movies`, lines 117-125): guard
`session.get('role') != 'admin'`; on deny flash "Access denied." and
redirect home; otherwise render the management list. -/
def manage_movies (sess : Session) (db : Db) : HandlerResult :=
  if sess.role ≠ some "admin" then
    { response := .redirect "index", sess := sess, db := db,
      flashes := [⟨"Access denied.", "danger"⟩] }
  else
    { response := .render "manage_movies.html", sess := sess, db := db, flashes := [] }

/-- A validated movie form submission: title and description. -/
structure MovieSubmission where
  title : String
  description : String

/-- `GET/POST /add_movie` (`add_movie`, lines 129-143): admin guard first;
then on a validated submission create the movie and redirect to the
management list, otherwise render the add form. -/
def add_movie (sess : Session) (db : Db) (sub : Option MovieSubmission) : HandlerResult :=
  if sess.role ≠ some "admin" then
    { response := .redirect "index", sess := sess, db := db,
      flashes := [⟨"Access denied.", "danger"⟩] }
  else
    match sub with
    | some s =>
      let movie : Movie := { id := db.nextMovieId, title := s.title, description := s.description }
      { response := .redirect "manage_movies", sess := sess,
        db := { db with movies := db.movies ++ [movie], nextMovieId := db.nextMovieId + 1 },
        flashes := [⟨"Movie added successfully!", "success"⟩] }
    | none =>
      { response := .render "add_movie.html", sess := sess, db := db, flashes := [] }

/-- `GET/POST /edit_movie/<id>` (`edit_movie`, lines 147-166): admin guard
first, then `get_or_404`; on a validated submission update the movie's title
and description in place and redirect, otherwise render the edit form. -/
def edit_movie (sess : Session) (db : Db) (id : Nat) (sub : Option MovieSubmission) :
    HandlerResult :=
  if sess.role ≠ some "admin" then
    { response := .redirect "index", sess := sess, db := db,
      flashes := [⟨"Access denied.", "danger"⟩] }
  else
    match findMovie db id with
    | none => { response := .notFound, sess := sess, db := db, flashes := [] }
    | some _ =>
      match sub with
      | some s =>
        { response := .redirect "manage_movies", sess := sess,
          db := { db with movies := db.movies.map (fun m =>
                    if m.id == id then { m with title := s.title, description := s.description }
                    else m) },
          flashes := [⟨"Movie updated!", "success"⟩] }
      | none =>
        { response := .render "edit.html", sess := sess, db := db, flashes := [] }

/-- `GET /delete_movie/<id>` (`delete_movie`, lines 170-181): admin guard
first, then `get_or_404`; delete the found movie, flash, redirect to the
management list. -/
def delete_movie (sess : Session) (db : Db) (id : Nat) : HandlerResult :=
  if sess.role ≠ some "admin" then
    { response := .redirect "index", sess := sess, db := db,
      flashes := [⟨"Access denied.", "danger"⟩] }
  else
    match findMovie db id with
    | none => { response := .notFound, sess := sess, db := db, flashes := [] }
    | some _ =>
      { response := .redirect "manage_movies", sess := sess,
        db := { db with movies := db.movies.filter (fun m => m.id ≠ id) },
        flashes := [⟨"Movie deleted!", "info"⟩] }

/-- `GET /view` (`view`, lines 185-194): guard
`session.get('role') != 'viewer'`; on deny flash "Access denied." and
redirect home; otherwise render all ratings. -/
def view (sess : Session) (db : Db) : HandlerResult :=
  if sess.role ≠ some "viewer" then
    { response := .redirect "index", sess := sess, db := db,
      flashes := [⟨"Access denied.", "danger"⟩] }
  else
    { response := .render "view.html", sess := sess, db := db, flashes := [] }

/-- A request was denied by the guard: its flashes contain the
"Access denied." warning. -/
def denied (r : HandlerResult) : Prop :=
  (⟨"Access denied.", "danger"⟩ : Flash) ∈ r.flashes

instance (r : HandlerResult) : Decidable (denied r) := by
  unfold denied; infer_instance

/-- C5: for every session state, logout removes both the `user` and `role`
entries from the session and redirects home, and it is idempotent: logging
out twice in a row ends in the same session state as once. -/
theorem logout_clears_and_idempotent (sess : Session) (db : Db) :
    (logout sess db).sess = { user := none, role := none } ∧
    (logout sess db).response = .redirect "index" ∧
    (logout sess db).db = db ∧
    (logout (logout sess db).sess (logout sess db).db).sess = (logout sess db).sess := by
  exact ⟨rfl, rfl, rfl, rfl⟩

/-- C10: the session entries `user` and `role` are written only by login and
removed only by logout: every other route handler leaves the session exactly
as it found it, on every request and in every session state. -/
theorem handlers_preserve_session (sess : Session) (db : Db) (id : Nat)
    (msub : Option MovieSubmission) (rsub : Option RateSubmission) :
    (index sess db).sess = sess ∧
    (rate sess db rsub).sess = sess ∧
    (manage_movies sess db).sess = sess ∧
    (add_movie sess db msub).sess = sess ∧
    (edit_movie sess db id msub).sess = sess ∧
    (delete_movie sess db id).sess = sess ∧
    (view sess db).sess = sess := by
  refine ⟨rfl, ?_, ?_, ?_, ?_, ?_, ?_⟩
  · cases rsub <;> rfl
  · by_cases h : sess.role = some "admin" <;> simp [manage_movies, h]
  · by_cases h : sess.role = some "admin" <;> cases msub <;> simp [add_movie, h]
  · by_cases h : sess.role = some "admin" <;>
      cases hm : findMovie db id <;> cases msub <;> simp [edit_movie, h, hm]
  · by_cases h : sess.role = some "admin" <;>
      cases hm : findMovie db id <;> simp [delete_movie, h, hm]
  · by_cases h : sess.role = some "viewer" <;> simp [view, h]

/-- C1: access to a role-guarded route is allowed iff the session's role
equals the route's required role: the admin routes (`manage_movies`,
`add_movie`, `edit_movie`, `delete_movie`) deny exactly when the role is not
`admin`, `view` denies exactly when the role is not `viewer` (so roles are
mutually exclusive, not hierarchical, and an absent role is denied on every
guarded route), and the unguarded routes (`index`, `login`, `logout`,
`rate`) never deny. -/
theorem guard_allows_iff_role_matches (sess : Session) (db : Db) (id : Nat)
    (msub : Option MovieSubmission) (lsub : LoginSubmission)
    (rsub : Option RateSubmission) :
    (denied (manage_movies sess db) ↔ sess.role ≠ some "admin") ∧
    (denied (add_movie sess db msub) ↔ sess.role ≠ some "admin") ∧
    (denied (edit_movie sess db id msub) ↔ sess.role ≠ some "admin") ∧
    (denied (delete_movie sess db id) ↔ sess.role ≠ some "admin") ∧
    (denied (view sess db) ↔ sess.role ≠ some "viewer") ∧
    ¬ denied (index sess db) ∧
    ¬ denied (login sess db lsub) ∧
    ¬ denied (logout sess db) ∧
    ¬ denied (rate sess db rsub) := by
  refine ⟨?_, ?_, ?_, ?_, ?_, ?_, ?_, ?_, ?_⟩
  · by_cases h : sess.role = some "admin" <;> simp [denied, manage_movies, h]
  · by_cases h : sess.role = some "admin" <;> cases msub <;>
      simp [denied, add_movie, h]
  · by_cases h : sess.role = some "admin" <;>
      cases hm : findMovie db id <;> cases msub <;>
      simp [denied, edit_movie, h, hm]
  · by_cases h : sess.role = some "admin" <;>
      cases hm : findMovie db id <;> simp [denied, delete_movie, h, hm]
  · by_cases h : sess.role = some "viewer" <;> simp [denied, view, h]
  · simp [denied, index]
  · rcases lsub with _ | ⟨uname, pwd⟩
    · simp [denied, login]
    · cases hu : findUser db uname
      · simp [denied, login, hu]
      · rename_i u
        by_cases hp : check_password_hash u.password pwd <;>
          by_cases hv : u.role = "viewer" <;>
          by_cases ha : u.role = "admin" <;>
          simp [denied, login, hu, hp, hv, ha]
  · simp [denied, logout]
  · cases rsub <;> simp [denied, rate]

/-- C2: every denied request on a role-guarded route results in a redirect to
the home view together with the user-visible "Access denied." warning (never
a not-found or any other fatal outcome), and leaves the session and the whole
persistence store — movies and ratings included — unchanged. -/
theorem denied_request_redirects_home_no_mutation (sess : Session) (db : Db)
    (id : Nat) (msub : Option MovieSubmission) :
    (sess.role ≠ some "admin" →
      manage_movies sess db =
        { response := .redirect "index", sess := sess, db := db,
          flashes := [⟨"Access denied.", "danger"⟩] } ∧
      add_movie sess db msub =
        { response := .redirect "index", sess := sess, db := db,
          flashes := [⟨"Access denied.", "danger"⟩] } ∧
      edit_movie sess db id msub =
        { response := .redirect "index", sess := sess, db := db,
          flashes := [⟨"Access denied.", "danger"⟩] } ∧
      delete_movie sess db id =
        { response := .redirect "index", sess := sess, db := db,
          flashes := [⟨"Access denied.", "danger"⟩] }) ∧
    (sess.role ≠ some "viewer" →
      view sess db =
        { response := .redirect "index", sess := sess, db := db,
          flashes := [⟨"Access denied.", "danger"⟩] }) := by
  constructor
  · intro h
    refine ⟨?_, ?_, ?_, ?_⟩ <;> simp [manage_movies, add_movie, edit_movie, delete_movie, h]
  · intro h
    simp [view, h]

/-- C2 witness: a viewer session is denied on the management route with the
home redirect, the warning, and no change to session or store. -/
theorem denied_request_redirects_home_no_mutation_witness :
    manage_movies { user := some "viewer", role := some "viewer" } emptyDb =
      { response := .redirect "index",
        sess := { user := some "viewer", role := some "viewer" },
        db := emptyDb,
        flashes := [⟨"Access denied.", "danger"⟩] } :=
  ((denied_request_redirects_home_no_mutation
      { user := some "viewer", role := some "viewer" } emptyDb 1 none).1
    (by decide)).1

/-- C3: when the submitted username matches a stored user and the password
verifies against the stored hash, login writes exactly that user's username
and stored role into the session (and nothing else), keeps the store
unchanged, and redirects by role: a viewer to the ratings view, an admin to
movie management. -/
theorem login_success_sets_session_and_redirects (sess : Session) (db : Db)
    (uname pwd : String) (u : User)
    (hu : findUser db uname = some u)
    (hp : check_password_hash u.password pwd = true) :
    (login sess db (some (uname, pwd))).sess =
      { user := some u.username, role := some u.role } ∧
    (login sess db (some (uname, pwd))).db = db ∧
    (u.role = "viewer" →
      (login sess db (some (uname, pwd))).response = .redirect "view") ∧
    (u.role = "admin" →
      (login sess db (some (uname, pwd))).response = .redirect "manage_movies") := by
  by_cases hv : u.role = "viewer" <;> by_cases ha : u.role = "admin" <;>
    simp [login, hu, hp, hv, ha]

/-- C3 witness: logging in as the seeded admin with the correct password
stores the admin role and redirects to the management route. -/
theorem login_success_sets_session_and_redirects_witness :
    (login { user := none, role := none } (bootstrap emptyDb)
        (some ("admin", "admin123"))).sess =
      { user := some "admin", role := some "admin" } ∧
    (login { user := none, role := none } (bootstrap emptyDb)
        (some ("admin", "admin123"))).db = bootstrap emptyDb ∧
    ("admin" = "viewer" →
      (login { user := none, role := none } (bootstrap emptyDb)
          (some ("admin", "admin123"))).response = .redirect "view") ∧
    ("admin" = "admin" →
      (login { user := none, role := none } (bootstrap emptyDb)
          (some ("admin", "admin123"))).response = .redirect "manage_movies") :=
  login_success_sets_session_and_redirects { user := none, role := none }
    (bootstrap emptyDb) "admin" "admin123"
    { username := "admin", password := generate_password_hash "admin123", role := "admin" }
    (by decide) (by decide)

/-- C4: when the submitted username matches no stored user, or the password
fails verification against the stored hash, login leaves the session (and the
store) unchanged, flashes an error-level "Invalid credentials" message, and
re-renders the login form. -/
theorem login_failure_rerenders_without_session_change (sess : Session)
    (db : Db) (uname pwd : String)
    (h : (findUser db uname).all
          (fun u => ! check_password_hash u.password pwd) = true) :
    login sess db (some (uname, pwd)) =
      { response := .render "login.html", sess := sess, db := db,
        flashes := [⟨"Invalid credentials", "danger"⟩] } := by
  cases hu : findUser db uname
  · simp [login, hu]
  · rw [hu] at h
    simp only [Option.all_some, Bool.not_eq_true'] at h
    simp [login, hu, h]

/-- C4 witness: a wrong password for the seeded admin leaves the session
untouched and re-renders the login form with the error flash. -/
theorem login_failure_rerenders_without_session_change_witness :
    login { user := none, role := none } (bootstrap emptyDb)
        (some ("admin", "wrongpassword")) =
      { response := .render "login.html",
        sess := { user := none, role := none },
        db := bootstrap emptyDb,
        flashes := [⟨"Invalid credentials", "danger"⟩] } :=
  login_failure_rerenders_without_session_change { user := none, role := none }
    (bootstrap emptyDb) "admin" "wrongpassword" (by decide)

/-- C6: `/rate` is open to every caller — the outcome does not depend on the
session (no guard, never denied) and the session is left unchanged — and a
validated submission persists exactly one new Rating carrying the
server-assigned creation timestamp, flashes success and redirects back to
`rate`, where the listing is a permutation of the stored ratings sorted
descending by creation time (most recent first). -/
theorem rate_open_persists_and_lists_sorted (sess sess2 : Session) (db : Db)
    (s : RateSubmission) (sub : Option RateSubmission) :
    (rate sess db sub).response = (rate sess2 db sub).response ∧
    (rate sess db sub).db = (rate sess2 db sub).db ∧
    (rate sess db sub).flashes = (rate sess2 db sub).flashes ∧
    ¬ denied (rate sess db sub) ∧
    (rate sess db sub).sess = sess ∧
    (rate sess db (some s)).db.ratings =
      db.ratings ++
        [{ id := db.nextRatingId, name := s.name, movie := s.movieChoice,
           stars := s.stars, remarks := s.remarks, created_at := db.now }] ∧
    (rate sess db (some s)).response = .redirect "rate" ∧
    (rate sess db (some s)).flashes =
      [⟨"Rating submitted successfully!", "success"⟩] ∧
    (ratingsDesc (rate sess db (some s)).db).Perm
      (rate sess db (some s)).db.ratings ∧
    List.Sorted (fun a b => b.created_at ≤ a.created_at)
      (ratingsDesc (rate sess db (some s)).db) := by
  haveI : IsTotal Rating (fun a b => b.created_at ≤ a.created_at) :=
    ⟨fun a b => Nat.le_total b.created_at a.created_at⟩
  haveI : IsTrans Rating (fun a b => b.created_at ≤ a.created_at) :=
    ⟨fun a b c hab hbc => Nat.le_trans hbc hab⟩
  refine ⟨?_, ?_, ?_, ?_, ?_, rfl, rfl, rfl, ?_, ?_⟩
  · cases sub <;> rfl
  · cases sub <;> rfl
  · cases sub <;> rfl
  · cases sub <;> simp [denied, rate]
  · cases sub <;> rfl
  · exact List.perm_insertionSort _ _
  · exact List.sorted_insertionSort _ _

/-- C7: for an admin session, deleting an existing movie removes exactly that
movie — every subsequent listing excludes it, no other movie is removed and
none is added — and redirects to the management list; deleting a non-existent
id yields the terminal not-found outcome and changes nothing at all. -/
theorem delete_movie_removes_or_not_found (sess : Session) (db : Db)
    (id : Nat) (hrole : sess.role = some "admin") :
    (∀ m, findMovie db id = some m →
      (delete_movie sess db id).response = .redirect "manage_movies" ∧
      m ∉ (delete_movie sess db id).db.movies ∧
      (∀ m2 ∈ (delete_movie sess db id).db.movies, m2.id ≠ id) ∧
      (∀ m2 ∈ db.movies, m2.id ≠ id → m2 ∈ (delete_movie sess db id).db.movies) ∧
      ((delete_movie sess db id).db.movies).Sublist db.movies ∧
      (delete_movie sess db id).db.ratings = db.ratings ∧
      (delete_movie sess db id).db.users = db.users) ∧
    (findMovie db id = none →
      delete_movie sess db id =
        { response := .notFound, sess := sess, db := db, flashes := [] }) := by
  constructor
  · intro m hm
    have hid : m.id = id := by
      have := List.find?_some hm
      simpa using this
    refine ⟨?_, ?_, ?_, ?_, ?_, ?_, ?_⟩
    · simp [delete_movie, hrole, hm]
    · simp [delete_movie, hrole, hm, List.mem_filter, hid]
    · intro m2 hmem
      simp [delete_movie, hrole, hm, List.mem_filter] at hmem
      exact hmem.2
    · intro m2 hmem hne
      simp [delete_movie, hrole, hm, List.mem_filter]
      exact ⟨hmem, hne⟩
    · simp only [delete_movie, hrole, hm]
      simp only [ne_eq, not_true_eq_false, if_false]
      exact List.filter_sublist _
    · simp [delete_movie, hrole, hm]
    · simp [delete_movie, hrole, hm]
  · intro hm
    simp [delete_movie, hrole, hm]

/-- C7 witness: with an admin session and a store holding exactly the movie
with id 1, deleting id 1 removes it and deleting id 2 is a not-found no-op. -/
theorem delete_movie_removes_or_not_found_witness :
    ((delete_movie { user := some "admin", role := some "admin" }
        { emptyDb with movies := [{ id := 1, title := "Inception", description := "d" }] }
        1).response = .redirect "manage_movies" ∧
      ({ id := 1, title := "Inception", description := "d" } : Movie) ∉
        (delete_movie { user := some "admin", role := some "admin" }
          { emptyDb with movies := [{ id := 1, title := "Inception", description := "d" }] }
          1).db.movies) ∧
    delete_movie { user := some "admin", role := some "admin" }
        { emptyDb with movies := [{ id := 1, title := "Inception", description := "d" }] }
        2 =
      { response := .notFound,
        sess := { user := some "admin", role := some "admin" },
        db := { emptyDb with movies := [{ id := 1, title := "Inception", description := "d" }] },
        flashes := [] } := by
  constructor
  · have h := (delete_movie_removes_or_not_found
        { user := some "admin", role := some "admin" }
        { emptyDb with movies := [{ id := 1, title := "Inception", description := "d" }] }
        1 rfl).1 { id := 1, title := "Inception", description := "d" } (by decide)
    exact ⟨h.1, h.2.1⟩
  · exact (delete_movie_removes_or_not_found
        { user := some "admin", role := some "admin" }
        { emptyDb with movies := [{ id := 1, title := "Inception", description := "d" }] }
        2 rfl).2 (by decide)

/-- C8: bootstrap, when no user named `admin` exists, appends exactly the two
seeded accounts — `admin` (role admin) and `viewer` (role viewer) — whose
stored passwords are the hashes of `admin123` and `viewer123`, never the
plaintexts (the digests verify against the plaintexts but differ from them);
from the empty store exactly 2 users exist afterwards. -/
theorem bootstrap_seeds_two_hashed_users (db : Db)
    (h : findUser db "admin" = none) :
    (bootstrap db).users = db.users ++
      [{ username := "admin", password := generate_password_hash "admin123",
         role := "admin" },
       { username := "viewer", password := generate_password_hash "viewer123",
         role := "viewer" }] ∧
    (bootstrap emptyDb).users.length = 2 ∧
    (∀ u ∈ (bootstrap emptyDb).users,
      u.password ≠ "admin123" ∧ u.password ≠ "viewer123") ∧
    check_password_hash (generate_password_hash "admin123") "admin123" = true ∧
    check_password_hash (generate_password_hash "viewer123") "viewer123" = true := by
  refine ⟨?_, by decide, by decide, by decide, by decide⟩
  simp [bootstrap, h]

/-- C8 witness: bootstrapping the empty store creates exactly the two seeded
accounts with hashed passwords. -/
theorem bootstrap_seeds_two_hashed_users_witness :
    (bootstrap emptyDb).users = emptyDb.users ++
      [{ username := "admin", password := generate_password_hash "admin123",
         role := "admin" },
       { username := "viewer", password := generate_password_hash "viewer123",
         role := "viewer" }] ∧
    (bootstrap emptyDb).users.length = 2 :=
  ⟨(bootstrap_seeds_two_hashed_users emptyDb (by decide)).1,
   (bootstrap_seeds_two_hashed_users emptyDb (by decide)).2.1⟩

/-- C9: in `edit_movie` and `delete_movie` the authorization check precedes
the existence lookup: for every non-admin session the outcome is exactly the
access-denied redirect home, for every id and every store — so two requests
differing only in the id (or the store) are indistinguishable to a non-admin
caller — and the not-found outcome is reachable only by an admin session. -/
theorem guard_precedes_lookup (sess : Session) (db db2 : Db) (id id2 : Nat)
    (sub sub2 : Option MovieSubmission) (h : sess.role ≠ some "admin") :
    edit_movie sess db id sub =
      { response := .redirect "index", sess := sess, db := db,
        flashes := [⟨"Access denied.", "danger"⟩] } ∧
    delete_movie sess db id =
      { response := .redirect "index", sess := sess, db := db,
        flashes := [⟨"Access denied.", "danger"⟩] } ∧
    (edit_movie sess db id sub).response = (edit_movie sess db2 id2 sub2).response ∧
    (delete_movie sess db id).response = (delete_movie sess db2 id2).response ∧
    (∀ s d i su, (edit_movie s d i su).response = .notFound →
      s.role = some "admin") ∧
    (∀ s d i, (delete_movie s d i).response = .notFound →
      s.role = some "admin") := by
  refine ⟨?_, ?_, ?_, ?_, ?_, ?_⟩
  · simp [edit_movie, h]
  · simp [delete_movie, h]
  · simp [edit_movie, h]
  · simp [delete_movie, h]
  · intro s d i su hr
    by_contra hne
    simp [edit_movie, hne] at hr
  · intro s d i hr
    by_contra hne
    simp [delete_movie, hne] at hr

/-- C9 witness: a viewer session gets the same access-denied outcome on
`delete_movie` for an existing and a non-existing id. -/
theorem guard_precedes_lookup_witness :
    delete_movie { user := some "viewer", role := some "viewer" }
        { emptyDb with movies := [{ id := 1, title := "Inception", description := "d" }] }
        1 =
      { response := .redirect "index",
        sess := { user := some "viewer", role := some "viewer" },
        db := { emptyDb with movies := [{ id := 1, title := "Inception", description := "d" }] },
        flashes := [⟨"Access denied.", "danger"⟩] } ∧
    (delete_movie { user := some "viewer", role := some "viewer" }
        { emptyDb with movies := [{ id := 1, title := "Inception", description := "d" }] }
        1).response =
      (delete_movie { user := some "viewer", role := some "viewer" }
        { emptyDb with movies := [{ id := 1, title := "Inception", description := "d" }] }
        2).response :=
  ⟨(guard_precedes_lookup { user := some "viewer", role := some "viewer" }
      { emptyDb with movies := [{ id := 1, title := "Inception", description := "d" }] }
      { emptyDb with movies := [{ id := 1, title := "Inception", description := "d" }] }
      1 2 none none (by decide)).2.1,
   (guard_precedes_lookup { user := some "viewer", role := some "viewer" }
      { emptyDb with movies := [{ id := 1, title := "Inception", description := "d" }] }
      { emptyDb with movies := [{ id := 1, title := "Inception", description := "d" }] }
      1 2 none none (by decide)).2.2.2.1⟩
